import Mathlib

/-!
Shallow embedding of the power-price simulation engine
(`src/power_simulator/models.py`, `src/power_simulator/regimes.py`,
`src/power_simulator/engine.py`).

Modelling conventions:
* Python floats are modelled by exact rationals `ℚ`.
* Every call to the global numpy random source is modelled by an explicit
  draw argument, so quantifying over draw values is quantifying over random
  streams. A standard-normal draw `np.random.normal(0, s)` is modelled as
  `s * z` with `z : ℚ` the realized standard variate (its realized value is
  the scale times a standard draw; in particular it is exactly `0` when the
  scale `s` is `0`); `np.random.random()` is a value `u : ℚ` (uniform on
  `[0,1)` in the source, left unconstrained here — no claim depends on the
  bound); `np.random.randint(0, 3)` is a `Fin 3`.
* `np.sqrt` is modelled by the computable `Rat.sqrt`; no claim depends on
  its value, only on the scale factor being `0` when the volatility is `0`.
* Methods that mutate `self` are modelled in state-passing style: they
  return their result together with the updated simulator value.
* A raised `RuntimeError` is modelled by `Except.error`.
-/

/-- `VolatilityRegime` enum from `models.py`. -/
inductive VolatilityRegime where
  | LOW
  | MEDIUM
  | HIGH
deriving DecidableEq, Repr

/-- `RegimeConfig` from `regimes.py`: the two multipliers of a regime. -/
structure RegimeConfig where
  volatility_multiplier : ℚ
  jump_probability_multiplier : ℚ
deriving DecidableEq, Repr

/-- The static `REGIME_CONFIGS` mapping from `regimes.py`
(LOW: 0.5/1.0, MEDIUM: 1.0/1.5, HIGH: 1.5/2.0). -/
def REGIME_CONFIGS : VolatilityRegime → RegimeConfig
  | .LOW => ⟨1/2, 1⟩
  | .MEDIUM => ⟨1, 3/2⟩
  | .HIGH => ⟨3/2, 2⟩

/-- `SimulationParameters` dataclass from `models.py` (fields after
`__post_init__` clamping has run). -/
structure SimulationParameters where
  max_volatility : ℚ
  mean_reversion_strength : ℚ
  jump_frequency : ℚ
deriving DecidableEq, Repr

/-- Construction of `SimulationParameters`: the raw field values followed by
the `__post_init__` clamping (`max(0, min(50, v))`, `max(0.01, min(0.5, s))`,
`max(0, min(5, f))`). -/
def SimulationParameters.make (mv mrs jf : ℚ) : SimulationParameters :=
  ⟨max 0 (min 50 mv), max (1/100) (min (1/2) mrs), max 0 (min 5 jf)⟩

/-- Default-argument construction `SimulationParameters()`
(defaults 15.0, 0.05, 2.0 from `models.py`). -/
def defaultParameters : SimulationParameters :=
  SimulationParameters.make 15 (1/20) 2

/-- `PricePoint` dataclass from `models.py`. -/
structure PricePoint where
  timestamp : ℚ
  price : ℚ
  regime : VolatilityRegime
  jump_occurred : Bool
deriving DecidableEq, Repr

/-- `SimulationState` dataclass from `models.py`. -/
structure SimulationState where
  current_price : ℚ
  elapsed_time : ℚ
  regime : VolatilityRegime
  regime_switch_time : ℚ
  price_history : List PricePoint
deriving DecidableEq, Repr

/-- `SimulationState(current_price=cp)`: the given price together with the
dataclass field defaults (`elapsed_time=0.0`, `regime=MEDIUM`,
`regime_switch_time=0.0`, empty history). -/
def SimulationState.make (cp : ℚ) : SimulationState :=
  ⟨cp, 0, .MEDIUM, 0, []⟩

/-- `RegimeScheduler` mutable state from `regimes.py`. -/
structure RegimeScheduler where
  current_regime : VolatilityRegime
  last_switch_time : ℚ
deriving DecidableEq, Repr

namespace RegimeScheduler

/-- `RegimeScheduler.REGIME_SWITCH_INTERVAL` class constant (30 s). -/
def REGIME_SWITCH_INTERVAL : ℚ := 30

/-- `list(VolatilityRegime)`: enum members in declaration order. -/
def regimeList : List VolatilityRegime := [.LOW, .MEDIUM, .HIGH]

/-- `_select_random_regime`: index the regime list by the realized
`np.random.randint(0, 3)` draw. -/
def select_random_regime (pick : Fin 3) : VolatilityRegime :=
  regimeList.get ⟨pick.val, pick.isLt⟩

/-- `RegimeScheduler.__init__`: random starting regime, `last_switch_time = 0`. -/
def init (pick : Fin 3) : RegimeScheduler :=
  ⟨select_random_regime pick, 0⟩

/-- `RegimeScheduler.update(elapsed_time)`: reselect the regime and record the
switch time when at least `REGIME_SWITCH_INTERVAL` has passed since the last
switch; otherwise leave the scheduler unchanged. Returns the (possibly new)
regime together with the updated scheduler state. -/
def update (s : RegimeScheduler) (elapsed_time : ℚ) (pick : Fin 3) :
    VolatilityRegime × RegimeScheduler :=
  if elapsed_time - s.last_switch_time ≥ REGIME_SWITCH_INTERVAL then
    let r := select_random_regime pick
    (r, ⟨r, elapsed_time⟩)
  else
    (s.current_regime, s)

/-- `RegimeScheduler.get_regime`. -/
def get_regime (s : RegimeScheduler) : VolatilityRegime :=
  s.current_regime

end RegimeScheduler

/-- The realized draws consumed by one `generate_next_price` call:
`noiseZ` is the standard variate behind `_sample_normal_noise`'s
`np.random.normal(0, std_dev)`, `jumpU` the `np.random.random()` inside
`_sample_jump`, and `jumpZ` the standard variate behind the jump-magnitude
`np.random.normal(0, jump_std)` (consumed only when the jump fires). -/
structure GenDraws where
  noiseZ : ℚ
  jumpU : ℚ
  jumpZ : ℚ
deriving DecidableEq, Repr

/-- The realized draws consumed by one `run_step` call: the regime pick for a
potential scheduler switch, the `generate_next_price` draws, and `flagU`, the
second `np.random.random()` drawn when recording the `jump_occurred` flag. -/
structure StepDraws where
  regimePick : Fin 3
  gen : GenDraws
  flagU : ℚ
deriving DecidableEq, Repr

/-- `PriceSimulator` from `engine.py`: parameters, owned state, scheduler. -/
structure PriceSimulator where
  parameters : SimulationParameters
  state : SimulationState
  regime_scheduler : RegimeScheduler
deriving DecidableEq, Repr

namespace PriceSimulator

/-- Class constant `LONG_TERM_MEAN` (100 EUR/MWh). -/
def LONG_TERM_MEAN : ℚ := 100

/-- Class constant `PRICE_MIN` (1.0 EUR/MWh). -/
def PRICE_MIN : ℚ := 1

/-- Class constant `PRICE_MAX` (300.0 EUR/MWh). -/
def PRICE_MAX : ℚ := 300

/-- Class constant `TIME_STEP` (0.2 s). -/
def TIME_STEP : ℚ := 1/5

/-- Class constant `REGIME_SWITCH_INTERVAL` (30 s). -/
def REGIME_SWITCH_INTERVAL : ℚ := 30

/-- Class constant `TOTAL_DURATION` (180 s). -/
def TOTAL_DURATION : ℚ := 180

/-- `PriceSimulator.__init__(parameters)`: fresh state at the long-term mean
and a freshly seeded scheduler. -/
def init (parameters : SimulationParameters) (pick : Fin 3) : PriceSimulator :=
  ⟨parameters, SimulationState.make LONG_TERM_MEAN, RegimeScheduler.init pick⟩

/-- `PriceSimulator.reset()`: replace the state and the scheduler wholesale,
exactly as construction does. -/
def reset (sim : PriceSimulator) (pick : Fin 3) : PriceSimulator :=
  ⟨sim.parameters, SimulationState.make LONG_TERM_MEAN, RegimeScheduler.init pick⟩

/-- `PriceSimulator.get_current_state()`. -/
def get_current_state (sim : PriceSimulator) : SimulationState :=
  sim.state

/-- `np.clip(x, lo, hi)` = `np.minimum(hi, np.maximum(lo, x))`. -/
def np_clip (x lo hi : ℚ) : ℚ :=
  min hi (max lo x)

/-- `_sample_normal_noise(volatility, dt)`: realized value of
`np.random.normal(0, volatility * np.sqrt(dt))`, i.e. the standard variate
`z` scaled by the standard deviation. -/
def sample_normal_noise (volatility dt z : ℚ) : ℚ :=
  volatility * Rat.sqrt dt * z

/-- `_sample_jump(volatility)`: per-step jump probability from the current
regime of `self.state`, a Bernoulli decision against the realized uniform
draw `u`, and — only when the jump fires — a magnitude realized from
`np.random.normal(0, 0.5 * volatility)` with standard variate `z`. -/
def sample_jump (sim : PriceSimulator) (volatility u z : ℚ) : Bool × ℚ :=
  let regime_config := REGIME_CONFIGS sim.state.regime
  let jump_prob := sim.parameters.jump_frequency
    * regime_config.jump_probability_multiplier * (TIME_STEP / 60)
  let jump_occurred := decide (u < jump_prob)
  let jump_magnitude := if jump_occurred then (1/2 * volatility) * z else 0
  (jump_occurred, jump_magnitude)

/-- `generate_next_price(dt)`: mean-reversion plus volatility shock plus jump
component, clamped to `[PRICE_MIN, PRICE_MAX]`. The Python method assigns to
no field of `self`, so in state-passing form it returns the simulator value
unchanged alongside the computed price. -/
def generate_next_price (sim : PriceSimulator) (dt : ℚ) (d : GenDraws) :
    ℚ × PriceSimulator :=
  let regime_config := REGIME_CONFIGS sim.state.regime
  let effective_volatility := sim.parameters.max_volatility
    * regime_config.volatility_multiplier
  let mean_reversion := (LONG_TERM_MEAN - sim.state.current_price)
    * sim.parameters.mean_reversion_strength * dt
  let volatility_shock := sample_normal_noise effective_volatility dt d.noiseZ
  let jump := sim.sample_jump effective_volatility d.jumpU d.jumpZ
  let new_price := sim.state.current_price
    + mean_reversion + volatility_shock + jump.2
  (np_clip new_price PRICE_MIN PRICE_MAX, sim)

/-- `run_step()`: raise if `elapsed_time > TOTAL_DURATION`; otherwise advance
time by `TIME_STEP`, update the regime via the scheduler, generate the next
price, redraw the jump-occurrence flag with a fresh uniform draw `flagU`,
append the new `PricePoint` to the history and return it. (The Python error
message interpolates the elapsed time; the model keeps a fixed message.) -/
def run_step (sim : PriceSimulator) (d : StepDraws) :
    Except String PricePoint × PriceSimulator :=
  if sim.state.elapsed_time > TOTAL_DURATION then
    (.error "Simulation already completed", sim)
  else
    let elapsed := sim.state.elapsed_time + TIME_STEP
    let upd := sim.regime_scheduler.update elapsed d.regimePick
    let sim1 : PriceSimulator :=
      { sim with
        state := { sim.state with elapsed_time := elapsed, regime := upd.1 }
        regime_scheduler := upd.2 }
    let gen := sim1.generate_next_price TIME_STEP d.gen
    let sim2 : PriceSimulator :=
      { gen.2 with state := { gen.2.state with current_price := gen.1 } }
    let regime_config := REGIME_CONFIGS sim2.state.regime
    let jump_prob := sim2.parameters.jump_frequency
      * regime_config.jump_probability_multiplier * (TIME_STEP / 60)
    let jump_occurred := decide (d.flagU < jump_prob)
    let price_point : PricePoint :=
      ⟨sim2.state.elapsed_time, sim2.state.current_price,
        sim2.state.regime, jump_occurred⟩
    let sim3 : PriceSimulator :=
      { sim2 with
        state :=
          { sim2.state with
            price_history := sim2.state.price_history ++ [price_point] } }
    (.ok price_point, sim3)

/-- Iterate `run_step`, feeding draw record `ds n` to the n-th call and
keeping whatever simulator value each call returns (unchanged on error). -/
def run_steps (sim : PriceSimulator) (ds : ℕ → StepDraws) : ℕ → PriceSimulator
  | 0 => sim
  | n + 1 => ((sim.run_steps ds n).run_step (ds n)).2

end PriceSimulator


/-! ## Concrete instantiations used by witnesses and counterexamples -/

/-- Draw record used by concrete instantiations: no regime switch pick, zero
normal variates, uniform draws that suppress jumps. -/
def stepD0 : StepDraws := ⟨0, ⟨0, 1, 0⟩, 1⟩

/-- A simulator value past the horizon: the fresh state with
`elapsed_time = 180.2`, as reached after 901 successful steps. -/
def simOver : PriceSimulator :=
  { PriceSimulator.init defaultParameters 0 with
    state := { SimulationState.make 100 with elapsed_time := 901/5 } }

/-- Parameters of the §8 mean-reversion scenario:
`SimulationParameters(max_volatility=0, mean_reversion_strength=0.2,
jump_frequency=0)`. -/
def meanRevParameters : SimulationParameters := SimulationParameters.make 0 (1/5) 0

/-- The §8 scenario simulator: constructed with `meanRevParameters`, then
`state.current_price` set to 50 (regime pick immaterial at zero volatility). -/
def meanRevSim : PriceSimulator :=
  { PriceSimulator.init meanRevParameters 0 with
    state := { (PriceSimulator.init meanRevParameters 0).state with
      current_price := 50 } }

/-- Modelled from the spec scenario (§8): repeated `generate_next_price`
calls with each returned value written back to `state.current_price` between
calls — the reading under which "monotonic approach toward 100" is
meaningful, since `generate_next_price` itself never advances the state. -/
def feedback_prices (sim : PriceSimulator) (d : ℕ → GenDraws) : ℕ → PriceSimulator
  | 0 => sim
  | n + 1 =>
    let prev := feedback_prices sim d n
    { prev with state := { prev.state with
        current_price := (prev.generate_next_price PriceSimulator.TIME_STEP (d n)).1 } }

/-- Simulator at regime pick 1 (MEDIUM scheduler regime), default parameters. -/
def simMed : PriceSimulator := PriceSimulator.init defaultParameters 1
/-! ## Helper lemmas -/

theorem np_clip_mem (x lo hi : ℚ) (h : lo ≤ hi) :
    lo ≤ PriceSimulator.np_clip x lo hi ∧ PriceSimulator.np_clip x lo hi ≤ hi :=
  ⟨le_min h (le_max_left lo x), min_le_left hi _⟩

theorem run_step_err (sim : PriceSimulator) (d : StepDraws)
    (h : sim.state.elapsed_time > PriceSimulator.TOTAL_DURATION) :
    sim.run_step d = (.error "Simulation already completed", sim) := by
  simp [PriceSimulator.run_step, h]

theorem run_step_ok_spec (sim : PriceSimulator) (d : StepDraws)
    (h : sim.state.elapsed_time ≤ PriceSimulator.TOTAL_DURATION) :
    ∃ pt : PricePoint,
      (sim.run_step d).1 = .ok pt ∧
      (sim.run_step d).2.state.elapsed_time
        = sim.state.elapsed_time + PriceSimulator.TIME_STEP ∧
      (sim.run_step d).2.state.price_history
        = sim.state.price_history ++ [pt] ∧
      pt.timestamp = sim.state.elapsed_time + PriceSimulator.TIME_STEP ∧
      pt.price = (sim.run_step d).2.state.current_price ∧
      pt.regime = (sim.run_step d).2.state.regime ∧
      (∃ x : ℚ, (sim.run_step d).2.state.current_price
          = PriceSimulator.np_clip x PriceSimulator.PRICE_MIN PriceSimulator.PRICE_MAX) ∧
      (sim.run_step d).2.parameters = sim.parameters := by
  have h' : ¬ sim.state.elapsed_time > PriceSimulator.TOTAL_DURATION := not_lt.mpr h
  simp only [PriceSimulator.run_step, if_neg h']
  exact ⟨_, rfl, rfl, rfl, rfl, rfl, rfl, ⟨_, rfl⟩, rfl⟩

theorem run_step_ok_le (sim : PriceSimulator) (d : StepDraws) (pt : PricePoint)
    (h : (sim.run_step d).1 = .ok pt) :
    sim.state.elapsed_time ≤ PriceSimulator.TOTAL_DURATION := by
  by_contra hc
  rw [run_step_err sim d (not_le.mp hc)] at h
  simp at h

theorem run_step_bounds (sim : PriceSimulator) (d : StepDraws)
    (hist : ∀ pt ∈ sim.state.price_history,
      PriceSimulator.PRICE_MIN ≤ pt.price ∧ pt.price ≤ PriceSimulator.PRICE_MAX)
    (hcur : PriceSimulator.PRICE_MIN ≤ sim.state.current_price
      ∧ sim.state.current_price ≤ PriceSimulator.PRICE_MAX) :
    (∀ pt ∈ (sim.run_step d).2.state.price_history,
      PriceSimulator.PRICE_MIN ≤ pt.price ∧ pt.price ≤ PriceSimulator.PRICE_MAX) ∧
    (PriceSimulator.PRICE_MIN ≤ (sim.run_step d).2.state.current_price
      ∧ (sim.run_step d).2.state.current_price ≤ PriceSimulator.PRICE_MAX) := by
  by_cases h : sim.state.elapsed_time > PriceSimulator.TOTAL_DURATION
  · rw [run_step_err sim d h]
    exact ⟨hist, hcur⟩
  · obtain ⟨pt, -, -, hh, -, hp, -, ⟨x, hx⟩, -⟩ :=
      run_step_ok_spec sim d (not_lt.mp h)
    have hb := np_clip_mem x PriceSimulator.PRICE_MIN PriceSimulator.PRICE_MAX
      (by norm_num [PriceSimulator.PRICE_MIN, PriceSimulator.PRICE_MAX])
    refine ⟨?_, ?_⟩
    · intro q hq
      rw [hh] at hq
      rcases List.mem_append.mp hq with hq | hq
      · exact hist q hq
      · rw [List.mem_singleton.mp hq, hp, hx]
        exact hb
    · rw [hx]
      exact hb

theorem run_steps_bounds (sim : PriceSimulator) (ds : ℕ → StepDraws)
    (hist : ∀ pt ∈ sim.state.price_history,
      PriceSimulator.PRICE_MIN ≤ pt.price ∧ pt.price ≤ PriceSimulator.PRICE_MAX)
    (hcur : PriceSimulator.PRICE_MIN ≤ sim.state.current_price
      ∧ sim.state.current_price ≤ PriceSimulator.PRICE_MAX) (n : ℕ) :
    (∀ pt ∈ (sim.run_steps ds n).state.price_history,
      PriceSimulator.PRICE_MIN ≤ pt.price ∧ pt.price ≤ PriceSimulator.PRICE_MAX) ∧
    (PriceSimulator.PRICE_MIN ≤ (sim.run_steps ds n).state.current_price
      ∧ (sim.run_steps ds n).state.current_price ≤ PriceSimulator.PRICE_MAX) := by
  induction n with
  | zero => exact ⟨hist, hcur⟩
  | succ n ih => exact run_step_bounds _ (ds n) ih.1 ih.2

theorem run_steps_fixed_of_err (sim : PriceSimulator) (ds : ℕ → StepDraws)
    (h : sim.state.elapsed_time > PriceSimulator.TOTAL_DURATION) (n : ℕ) :
    sim.run_steps ds n = sim := by
  induction n with
  | zero => rfl
  | succ n ih =>
    show ((sim.run_steps ds n).run_step (ds n)).2 = sim
    rw [ih, run_step_err sim (ds n) h]


theorem run_steps_totals (sim : PriceSimulator) (ds : ℕ → StepDraws) (N : ℕ)
    (hok : ∀ k < N, ∃ pt, ((sim.run_steps ds k).run_step (ds k)).1 = .ok pt) :
    (sim.run_steps ds N).state.elapsed_time
      = sim.state.elapsed_time + N * PriceSimulator.TIME_STEP ∧
    (sim.run_steps ds N).state.price_history.length
      = sim.state.price_history.length + N := by
  induction N with
  | zero => simp [PriceSimulator.run_steps]
  | succ n ih =>
    obtain ⟨he, hl⟩ := ih (fun k hk => hok k (hk.trans (Nat.lt_succ_self n)))
    obtain ⟨pt, hpt⟩ := hok n (Nat.lt_succ_self n)
    obtain ⟨pt', -, he', hh', -⟩ := run_step_ok_spec _ (ds n) (run_step_ok_le _ _ _ hpt)
    constructor
    · show ((sim.run_steps ds n).run_step (ds n)).2.state.elapsed_time = _
      rw [he', he]
      push_cast
      ring
    · show ((sim.run_steps ds n).run_step (ds n)).2.state.price_history.length = _
      rw [hh']
      simp [hl]
      omega

theorem gen_zero_vol (sim : PriceSimulator) (d : GenDraws)
    (hv : sim.parameters.max_volatility = 0)
    (hm : sim.parameters.mean_reversion_strength = 1/5) :
    (sim.generate_next_price PriceSimulator.TIME_STEP d).1
      = PriceSimulator.np_clip
          (sim.state.current_price
            + (PriceSimulator.LONG_TERM_MEAN - sim.state.current_price) * (1/5) * (1/5))
          PriceSimulator.PRICE_MIN PriceSimulator.PRICE_MAX := by
  simp [PriceSimulator.generate_next_price, PriceSimulator.sample_normal_noise,
    PriceSimulator.sample_jump, hv, hm, PriceSimulator.TIME_STEP, ite_self]

theorem feedback_params (sim : PriceSimulator) (d : ℕ → GenDraws) (n : ℕ) :
    (feedback_prices sim d n).parameters = sim.parameters := by
  induction n with
  | zero => rfl
  | succ n ih => simpa [feedback_prices] using ih

theorem feedback_inv (d : ℕ → GenDraws) : ∀ n : ℕ,
    (50 ≤ (feedback_prices meanRevSim d n).state.current_price ∧
     (feedback_prices meanRevSim d n).state.current_price < 100) ∧
    (feedback_prices meanRevSim d (n+1)).state.current_price
      = (feedback_prices meanRevSim d n).state.current_price
        + (100 - (feedback_prices meanRevSim d n).state.current_price) * (1/5) * (1/5) := by
  have hrec : ∀ n : ℕ,
      50 ≤ (feedback_prices meanRevSim d n).state.current_price →
      (feedback_prices meanRevSim d n).state.current_price < 100 →
      (feedback_prices meanRevSim d (n+1)).state.current_price
        = (feedback_prices meanRevSim d n).state.current_price
          + (100 - (feedback_prices meanRevSim d n).state.current_price) * (1/5) * (1/5) := by
    intro n h1 h2
    have hv : (feedback_prices meanRevSim d n).parameters.max_volatility = 0 := by
      rw [feedback_params]
      norm_num [meanRevSim, PriceSimulator.init, meanRevParameters,
        SimulationParameters.make]
    have hm : (feedback_prices meanRevSim d n).parameters.mean_reversion_strength = 1/5 := by
      rw [feedback_params]
      norm_num [meanRevSim, PriceSimulator.init, meanRevParameters,
        SimulationParameters.make]
    have hgen := gen_zero_vol (feedback_prices meanRevSim d n) (d n) hv hm
    have hstep : (feedback_prices meanRevSim d (n+1)).state.current_price
        = ((feedback_prices meanRevSim d n).generate_next_price
            PriceSimulator.TIME_STEP (d n)).1 := rfl
    rw [hstep, hgen, PriceSimulator.np_clip, PriceSimulator.LONG_TERM_MEAN,
      PriceSimulator.PRICE_MIN, PriceSimulator.PRICE_MAX]
    rw [max_eq_right (by linarith), min_eq_right (by linarith)]
  intro n
  induction n with
  | zero =>
    have h0 : (feedback_prices meanRevSim d 0).state.current_price = 50 := rfl
    refine ⟨⟨by rw [h0], by rw [h0]; norm_num⟩,
      hrec 0 (by rw [h0]) (by rw [h0]; norm_num)⟩
  | succ n ih =>
    obtain ⟨⟨h1, h2⟩, hr⟩ := ih
    have h1' : 50 ≤ (feedback_prices meanRevSim d (n+1)).state.current_price := by
      rw [hr]; linarith
    have h2' : (feedback_prices meanRevSim d (n+1)).state.current_price < 100 := by
      rw [hr]; linarith
    exact ⟨⟨h1', h2'⟩, hrec (n+1) h1' h2'⟩

/-- C1: for every parameter assignment within the clamped ranges and every
step count 1 ≤ N ≤ 900 (any random draws, any initial regime pick), every
price the engine produces — the `price` field of every `PricePoint` in the
history and the state's `current_price` after every executed step — lies in
the closed interval `[PRICE_MIN, PRICE_MAX] = [1, 300]`. -/
theorem C1_price_bound_invariant (p : SimulationParameters) (pick : Fin 3)
    (ds : ℕ → StepDraws) (N : ℕ)
    (hv0 : 0 ≤ p.max_volatility) (hv1 : p.max_volatility ≤ 50)
    (hm0 : 1/100 ≤ p.mean_reversion_strength)
    (hm1 : p.mean_reversion_strength ≤ 1/2)
    (hj0 : 0 ≤ p.jump_frequency) (hj1 : p.jump_frequency ≤ 5)
    (hN0 : 1 ≤ N) (hN1 : N ≤ 900) :
    (∀ pt ∈ ((PriceSimulator.init p pick).run_steps ds N).state.price_history,
      PriceSimulator.PRICE_MIN ≤ pt.price ∧ pt.price ≤ PriceSimulator.PRICE_MAX) ∧
    (∀ k, 1 ≤ k → k ≤ N →
      PriceSimulator.PRICE_MIN
        ≤ ((PriceSimulator.init p pick).run_steps ds k).state.current_price ∧
      ((PriceSimulator.init p pick).run_steps ds k).state.current_price
        ≤ PriceSimulator.PRICE_MAX) := by
  have hist0 : ∀ pt ∈ (PriceSimulator.init p pick).state.price_history,
      PriceSimulator.PRICE_MIN ≤ pt.price ∧ pt.price ≤ PriceSimulator.PRICE_MAX := by
    simp [PriceSimulator.init, SimulationState.make]
  have hcur0 : PriceSimulator.PRICE_MIN ≤ (PriceSimulator.init p pick).state.current_price
      ∧ (PriceSimulator.init p pick).state.current_price ≤ PriceSimulator.PRICE_MAX := by
    norm_num [PriceSimulator.init, SimulationState.make, PriceSimulator.LONG_TERM_MEAN,
      PriceSimulator.PRICE_MIN, PriceSimulator.PRICE_MAX]
  exact ⟨(run_steps_bounds _ ds hist0 hcur0 N).1,
    fun k _ _ => (run_steps_bounds _ ds hist0 hcur0 k).2⟩

/-- Witness for C1 at the default parameters, pick 0, trivial draws, N = 1. -/
theorem C1_price_bound_invariant_witness :
    (∀ pt ∈ ((PriceSimulator.init defaultParameters 0).run_steps (fun _ => stepD0) 1).state.price_history,
      PriceSimulator.PRICE_MIN ≤ pt.price ∧ pt.price ≤ PriceSimulator.PRICE_MAX) ∧
    (∀ k, 1 ≤ k → k ≤ 1 →
      PriceSimulator.PRICE_MIN
        ≤ ((PriceSimulator.init defaultParameters 0).run_steps (fun _ => stepD0) k).state.current_price ∧
      ((PriceSimulator.init defaultParameters 0).run_steps (fun _ => stepD0) k).state.current_price
        ≤ PriceSimulator.PRICE_MAX) :=
  C1_price_bound_invariant defaultParameters 0 (fun _ => stepD0) 1
    (by norm_num [defaultParameters, SimulationParameters.make])
    (by norm_num [defaultParameters, SimulationParameters.make])
    (by norm_num [defaultParameters, SimulationParameters.make])
    (by norm_num [defaultParameters, SimulationParameters.make])
    (by norm_num [defaultParameters, SimulationParameters.make])
    (by norm_num [defaultParameters, SimulationParameters.make])
    (by norm_num) (by norm_num)

/-- C3: `run_step` succeeds with a `PricePoint` exactly when
`elapsed_time ≤ TOTAL_DURATION` at call time, fails with the
already-complete error exactly when `elapsed_time > TOTAL_DURATION`, and
once the elapsed time has exceeded the duration every subsequent call (after
any further sequence of calls) fails with that error. -/
theorem C3_already_complete_iff (sim : PriceSimulator) (d : StepDraws) :
    ((∃ pt, (sim.run_step d).1 = .ok pt)
      ↔ sim.state.elapsed_time ≤ PriceSimulator.TOTAL_DURATION) ∧
    ((sim.run_step d).1 = .error "Simulation already completed"
      ↔ sim.state.elapsed_time > PriceSimulator.TOTAL_DURATION) ∧
    (sim.state.elapsed_time > PriceSimulator.TOTAL_DURATION →
      ∀ (ds : ℕ → StepDraws) (n : ℕ),
        ((sim.run_steps ds n).run_step (ds n)).1
          = .error "Simulation already completed") := by
  refine ⟨⟨fun ⟨pt, hpt⟩ => run_step_ok_le sim d pt hpt, fun h => ?_⟩,
    ⟨fun h => ?_, fun h => by rw [run_step_err sim d h]⟩, fun h ds n => ?_⟩
  · obtain ⟨pt, hpt, -⟩ := run_step_ok_spec sim d h
    exact ⟨pt, hpt⟩
  · by_contra hc
    obtain ⟨pt, hpt, -⟩ := run_step_ok_spec sim d (not_lt.mp hc)
    rw [hpt] at h
    exact Except.noConfusion h
  · rw [run_steps_fixed_of_err sim ds h n, run_step_err sim (ds n) h]

/-- Witness for C3: a simulator at elapsed time 180.2 still fails after five
further (rejected) calls. -/
theorem C3_already_complete_iff_witness :
    ((simOver.run_steps (fun _ => stepD0) 5).run_step stepD0).1
      = .error "Simulation already completed" :=
  (C3_already_complete_iff simOver stepD0).2.2
    (by norm_num [simOver, PriceSimulator.init, SimulationState.make,
      PriceSimulator.TOTAL_DURATION])
    (fun _ => stepD0) 5

/-- C5: after any prior run (any number of steps, any draws), `reset`
restores the exact construction-time `SimulationState`: the same state value
as at construction, with `current_price = 100`, `elapsed_time = 0` and an
empty history. -/
theorem C5_reset_restores_initial (p : SimulationParameters)
    (pick pick2 : Fin 3) (ds : ℕ → StepDraws) (N : ℕ) :
    (((PriceSimulator.init p pick).run_steps ds N).reset pick2).state
      = (PriceSimulator.init p pick).state ∧
    (((PriceSimulator.init p pick).run_steps ds N).reset pick2).get_current_state.current_price = 100 ∧
    (((PriceSimulator.init p pick).run_steps ds N).reset pick2).get_current_state.elapsed_time = 0 ∧
    (((PriceSimulator.init p pick).run_steps ds N).reset pick2).get_current_state.price_history = [] :=
  ⟨rfl, rfl, rfl, rfl⟩

/-- C6: `generate_next_price` mutates nothing: for every simulator value,
time step and draws, the simulator it returns is exactly the one it was
given, field for field. -/
theorem C6_generate_next_price_pure (sim : PriceSimulator) (dt : ℚ) (d : GenDraws) :
    (sim.generate_next_price dt d).2 = sim ∧
    (sim.generate_next_price dt d).2.state.elapsed_time = sim.state.elapsed_time ∧
    (sim.generate_next_price dt d).2.state.current_price = sim.state.current_price ∧
    (sim.generate_next_price dt d).2.state.regime = sim.state.regime ∧
    (sim.generate_next_price dt d).2.regime_scheduler.last_switch_time
      = sim.regime_scheduler.last_switch_time ∧
    (sim.generate_next_price dt d).2.state.price_history = sim.state.price_history :=
  ⟨rfl, rfl, rfl, rfl, rfl, rfl⟩

/-- C10: when `run_step` is called with `elapsed_time > TOTAL_DURATION` it
raises the already-complete error and leaves the simulation state exactly
unchanged: same elapsed time, price, regime and history. -/
theorem C10_error_preserves_state (sim : PriceSimulator) (d : StepDraws)
    (h : sim.state.elapsed_time > PriceSimulator.TOTAL_DURATION) :
    (sim.run_step d).2 = sim ∧
    (sim.run_step d).2.state.elapsed_time = sim.state.elapsed_time ∧
    (sim.run_step d).2.state.current_price = sim.state.current_price ∧
    (sim.run_step d).2.state.regime = sim.state.regime ∧
    (sim.run_step d).2.state.price_history = sim.state.price_history ∧
    (sim.run_step d).1 = .error "Simulation already completed" := by
  rw [run_step_err sim d h]
  exact ⟨rfl, rfl, rfl, rfl, rfl, rfl⟩

/-- Witness for C10 at a concrete over-horizon simulator. -/
theorem C10_error_preserves_state_witness :
    (simOver.run_step stepD0).2 = simOver ∧
    (simOver.run_step stepD0).2.state.elapsed_time = simOver.state.elapsed_time ∧
    (simOver.run_step stepD0).2.state.current_price = simOver.state.current_price ∧
    (simOver.run_step stepD0).2.state.regime = simOver.state.regime ∧
    (simOver.run_step stepD0).2.state.price_history = simOver.state.price_history ∧
    (simOver.run_step stepD0).1 = .error "Simulation already completed" :=
  C10_error_preserves_state simOver stepD0
    (by norm_num [simOver, PriceSimulator.init, SimulationState.make,
      PriceSimulator.TOTAL_DURATION])

/-- C2: after N successful `run_step` calls from a fresh engine the state has
`elapsed_time = N * TIME_STEP` (exactly, in exact arithmetic) and a history
of length exactly N, and each successful step increases `elapsed_time` by
exactly `TIME_STEP` and appends exactly one `PricePoint`. -/
theorem C2_step_accounting (p : SimulationParameters) (pick : Fin 3)
    (ds : ℕ → StepDraws) (N : ℕ)
    (hok : ∀ k < N, ∃ pt,
      (((PriceSimulator.init p pick).run_steps ds k).run_step (ds k)).1 = .ok pt) :
    ((PriceSimulator.init p pick).run_steps ds N).state.elapsed_time
      = N * PriceSimulator.TIME_STEP ∧
    ((PriceSimulator.init p pick).run_steps ds N).state.price_history.length = N ∧
    (∀ k < N,
      ((PriceSimulator.init p pick).run_steps ds (k+1)).state.elapsed_time
        = ((PriceSimulator.init p pick).run_steps ds k).state.elapsed_time
          + PriceSimulator.TIME_STEP ∧
      ∃ pt, (((PriceSimulator.init p pick).run_steps ds k).run_step (ds k)).1 = .ok pt ∧
        ((PriceSimulator.init p pick).run_steps ds (k+1)).state.price_history
          = ((PriceSimulator.init p pick).run_steps ds k).state.price_history ++ [pt]) := by
  obtain ⟨he, hl⟩ := run_steps_totals (PriceSimulator.init p pick) ds N hok
  refine ⟨?_, ?_, fun k hk => ?_⟩
  · rw [he]
    simp [PriceSimulator.init, SimulationState.make]
  · rw [hl]
    simp [PriceSimulator.init, SimulationState.make]
  · obtain ⟨pt, hpt⟩ := hok k hk
    obtain ⟨pt', hok', he', hh', -⟩ :=
      run_step_ok_spec _ (ds k) (run_step_ok_le _ _ _ hpt)
    exact ⟨he', pt', hok', hh'⟩

/-- Witness for C2 at the default parameters, trivial draws, N = 1. -/
theorem C2_step_accounting_witness :
    ((PriceSimulator.init defaultParameters 0).run_steps (fun _ => stepD0) 1).state.elapsed_time
      = 1 * PriceSimulator.TIME_STEP ∧
    ((PriceSimulator.init defaultParameters 0).run_steps (fun _ => stepD0) 1).state.price_history.length = 1 ∧
    (∀ k < 1,
      ((PriceSimulator.init defaultParameters 0).run_steps (fun _ => stepD0) (k+1)).state.elapsed_time
        = ((PriceSimulator.init defaultParameters 0).run_steps (fun _ => stepD0) k).state.elapsed_time
          + PriceSimulator.TIME_STEP ∧
      ∃ pt, (((PriceSimulator.init defaultParameters 0).run_steps (fun _ => stepD0) k).run_step stepD0).1 = .ok pt ∧
        ((PriceSimulator.init defaultParameters 0).run_steps (fun _ => stepD0) (k+1)).state.price_history
          = ((PriceSimulator.init defaultParameters 0).run_steps (fun _ => stepD0) k).state.price_history ++ [pt]) :=
  C2_step_accounting defaultParameters 0 (fun _ => stepD0) 1 (by
    intro k hk
    obtain rfl : k = 0 := Nat.lt_one_iff.mp hk
    refine ⟨⟨1/5, 100, .LOW, false⟩, ?_⟩
    norm_num [PriceSimulator.run_step, PriceSimulator.run_steps,
      PriceSimulator.generate_next_price, PriceSimulator.sample_jump,
      PriceSimulator.sample_normal_noise, PriceSimulator.init,
      SimulationState.make, RegimeScheduler.init, RegimeScheduler.update,
      RegimeScheduler.select_random_regime, RegimeScheduler.regimeList,
      RegimeScheduler.REGIME_SWITCH_INTERVAL, PriceSimulator.np_clip,
      REGIME_CONFIGS, defaultParameters, SimulationParameters.make,
      PriceSimulator.LONG_TERM_MEAN, PriceSimulator.PRICE_MIN,
      PriceSimulator.PRICE_MAX, PriceSimulator.TIME_STEP,
      PriceSimulator.TOTAL_DURATION, stepD0, min_def, max_def])

/-- C4: the scheduler reselects the regime and records the switch time
exactly when `elapsed - last_switch_time ≥ 30`, and otherwise returns the
current regime with the scheduler state unmodified; consequently, on a
successful `run_step` whose (advanced) elapsed time has not reached the
switch boundary, the recorded `PricePoint` carries the scheduler's previous
regime and the scheduler state is unchanged — so the regime field of
consecutive points is unchanged between switches. -/
theorem C4_regime_switch (s : RegimeScheduler) (t : ℚ) (pick : Fin 3)
    (sim : PriceSimulator) (d : StepDraws) :
    (t - s.last_switch_time ≥ RegimeScheduler.REGIME_SWITCH_INTERVAL →
      s.update t pick
        = (RegimeScheduler.select_random_regime pick,
            ⟨RegimeScheduler.select_random_regime pick, t⟩)) ∧
    (t - s.last_switch_time < RegimeScheduler.REGIME_SWITCH_INTERVAL →
      s.update t pick = (s.current_regime, s)) ∧
    (sim.state.elapsed_time ≤ PriceSimulator.TOTAL_DURATION →
      (sim.state.elapsed_time + PriceSimulator.TIME_STEP)
          - sim.regime_scheduler.last_switch_time
        < RegimeScheduler.REGIME_SWITCH_INTERVAL →
      ∀ pt, (sim.run_step d).1 = .ok pt →
        pt.regime = sim.regime_scheduler.current_regime ∧
        (sim.run_step d).2.regime_scheduler = sim.regime_scheduler) := by
  refine ⟨fun h => ?_, fun h => ?_, fun h1 h2 => ?_⟩
  · simp [RegimeScheduler.update, if_pos h]
  · simp [RegimeScheduler.update, if_neg (not_le.mpr h)]
  · intro pt hpt
    have h' : ¬ sim.state.elapsed_time > PriceSimulator.TOTAL_DURATION := not_lt.mpr h1
    simp only [PriceSimulator.run_step, if_neg h',
      RegimeScheduler.update, if_neg (not_le.mpr h2)] at hpt ⊢
    rw [Except.ok.injEq] at hpt
    subst hpt
    exact ⟨rfl, rfl⟩

/-- Witness for C4: a switch at `t = 31` from `last_switch_time = 0`, no
switch at `t = 5`, and an engine step below the boundary keeping the HIGH
scheduler regime on the recorded point. -/
theorem C4_regime_switch_witness :
    (RegimeScheduler.update ⟨.LOW, 0⟩ 31 1 = (.MEDIUM, ⟨.MEDIUM, 31⟩)) ∧
    (RegimeScheduler.update ⟨.LOW, 0⟩ 5 1 = (.LOW, ⟨.LOW, 0⟩)) ∧
    (PricePoint.regime ⟨1/5, 100, .HIGH, false⟩
      = (PriceSimulator.init defaultParameters 2).regime_scheduler.current_regime ∧
    ((PriceSimulator.init defaultParameters 2).run_step stepD0).2.regime_scheduler
      = (PriceSimulator.init defaultParameters 2).regime_scheduler) := by
  refine ⟨(C4_regime_switch ⟨.LOW, 0⟩ 31 1 (PriceSimulator.init defaultParameters 2) stepD0).1
      (by norm_num [RegimeScheduler.REGIME_SWITCH_INTERVAL]),
    (C4_regime_switch ⟨.LOW, 0⟩ 5 1 (PriceSimulator.init defaultParameters 2) stepD0).2.1
      (by norm_num [RegimeScheduler.REGIME_SWITCH_INTERVAL]),
    (C4_regime_switch ⟨.LOW, 0⟩ 5 1 (PriceSimulator.init defaultParameters 2) stepD0).2.2
      (by norm_num [PriceSimulator.init, SimulationState.make, PriceSimulator.TOTAL_DURATION])
      (by norm_num [PriceSimulator.init, SimulationState.make, RegimeScheduler.init,
        PriceSimulator.TIME_STEP, RegimeScheduler.REGIME_SWITCH_INTERVAL])
      ⟨1/5, 100, .HIGH, false⟩ ?_⟩
  norm_num [PriceSimulator.run_step, PriceSimulator.generate_next_price,
    PriceSimulator.sample_jump, PriceSimulator.sample_normal_noise,
    PriceSimulator.init, SimulationState.make, RegimeScheduler.init,
    RegimeScheduler.update, RegimeScheduler.select_random_regime,
    RegimeScheduler.regimeList, RegimeScheduler.REGIME_SWITCH_INTERVAL,
    PriceSimulator.np_clip, REGIME_CONFIGS, defaultParameters,
    SimulationParameters.make, PriceSimulator.LONG_TERM_MEAN,
    PriceSimulator.PRICE_MIN, PriceSimulator.PRICE_MAX,
    PriceSimulator.TIME_STEP, PriceSimulator.TOTAL_DURATION, stepD0,
    min_def, max_def]

/-- C7 fails as stated: `generate_next_price` does not advance the state, so
ten calls in succession on the §8 scenario simulator return the same value
52 every time — the second returned value is not strictly closer to 100 than
the first. -/
theorem C7_counterexample :
    (meanRevSim.generate_next_price PriceSimulator.TIME_STEP ⟨1, 1, 1⟩).1 = 52 ∧
    ((meanRevSim.generate_next_price PriceSimulator.TIME_STEP ⟨1, 1, 1⟩).2.generate_next_price
        PriceSimulator.TIME_STEP ⟨1, 1, 1⟩).1 = 52 ∧
    ¬ |PriceSimulator.LONG_TERM_MEAN
        - ((meanRevSim.generate_next_price PriceSimulator.TIME_STEP ⟨1, 1, 1⟩).2.generate_next_price
            PriceSimulator.TIME_STEP ⟨1, 1, 1⟩).1|
      < |PriceSimulator.LONG_TERM_MEAN
        - (meanRevSim.generate_next_price PriceSimulator.TIME_STEP ⟨1, 1, 1⟩).1| := by
  have h1 : (meanRevSim.generate_next_price PriceSimulator.TIME_STEP ⟨1, 1, 1⟩).1 = 52 := by
    norm_num [PriceSimulator.generate_next_price, PriceSimulator.sample_jump,
      PriceSimulator.sample_normal_noise, PriceSimulator.init,
      SimulationState.make, RegimeScheduler.init, PriceSimulator.np_clip,
      REGIME_CONFIGS, meanRevSim, meanRevParameters, SimulationParameters.make,
      PriceSimulator.LONG_TERM_MEAN, PriceSimulator.PRICE_MIN,
      PriceSimulator.PRICE_MAX, PriceSimulator.TIME_STEP, min_def, max_def]
  have h2 : (meanRevSim.generate_next_price PriceSimulator.TIME_STEP ⟨1, 1, 1⟩).2
      = meanRevSim := rfl
  rw [h2]
  rw [h1]
  norm_num [PriceSimulator.LONG_TERM_MEAN]

/-- C7 amended: in the §8 scenario (`max_volatility = 0`,
`mean_reversion_strength = 0.2`, `jump_frequency = 0`, price set to 50), if
each `generate_next_price` return value is written back to the current price
before the next call — `generate_next_price` itself never updates the state
— then every produced value is strictly closer to 100 than the previous
price, strictly above it, and never exceeds 100, for any random draws. -/
theorem C7_amended_monotone (d : ℕ → GenDraws) (n : ℕ) :
    |PriceSimulator.LONG_TERM_MEAN - (feedback_prices meanRevSim d (n+1)).state.current_price|
      < |PriceSimulator.LONG_TERM_MEAN - (feedback_prices meanRevSim d n).state.current_price| ∧
    (feedback_prices meanRevSim d n).state.current_price
      < (feedback_prices meanRevSim d (n+1)).state.current_price ∧
    (feedback_prices meanRevSim d (n+1)).state.current_price < 100 := by
  obtain ⟨⟨h1, h2⟩, hr⟩ := feedback_inv d n
  have h1' : (feedback_prices meanRevSim d (n+1)).state.current_price < 100 := by
    rw [hr]; linarith
  rw [PriceSimulator.LONG_TERM_MEAN,
    abs_of_pos (by linarith : (0:ℚ) < 100 - (feedback_prices meanRevSim d (n+1)).state.current_price),
    abs_of_pos (by linarith : (0:ℚ) < 100 - (feedback_prices meanRevSim d n).state.current_price)]
  refine ⟨by rw [hr]; linarith, by rw [hr]; linarith, h1'⟩

/-- C8 fails as stated: before the first `run_step`, the observable
`get_current_state().regime` is the dataclass default MEDIUM for every
possible random pick — no random stream makes it LOW. -/
theorem C8_counterexample :
    ¬ ∃ pick : Fin 3,
      (PriceSimulator.init defaultParameters pick).get_current_state.regime
        = VolatilityRegime.LOW := by
  rintro ⟨pick, h⟩
  simp [PriceSimulator.init, SimulationState.make,
    PriceSimulator.get_current_state] at h

/-- C8 amended: at construction and after `reset`, the observable state has
`current_price = 100`, `elapsed_time = 0` and `regime = MEDIUM` (the
dataclass default); the scheduler's internal regime is the randomly chosen
one, and every regime is reachable by some random pick — it becomes
observable only after the first `run_step`. -/
theorem C8_initial_observable_state (p : SimulationParameters)
    (pick pick2 : Fin 3) (sim : PriceSimulator) :
    (PriceSimulator.init p pick).get_current_state.current_price = 100 ∧
    (PriceSimulator.init p pick).get_current_state.elapsed_time = 0 ∧
    (PriceSimulator.init p pick).get_current_state.regime = .MEDIUM ∧
    (∀ r : VolatilityRegime, ∃ pk : Fin 3,
      (PriceSimulator.init p pk).regime_scheduler.current_regime = r) ∧
    (sim.reset pick2).get_current_state.current_price = 100 ∧
    (sim.reset pick2).get_current_state.elapsed_time = 0 ∧
    (sim.reset pick2).get_current_state.regime = .MEDIUM ∧
    (∀ r : VolatilityRegime, ∃ pk : Fin 3,
      (sim.reset pk).regime_scheduler.current_regime = r) := by
  refine ⟨rfl, rfl, rfl, fun r => ?_, rfl, rfl, rfl, fun r => ?_⟩ <;>
  · cases r
    exacts [⟨0, rfl⟩, ⟨1, rfl⟩, ⟨2, rfl⟩]

/-- C9: within one successful `run_step` the recorded `jump_occurred` flag
comes from a second uniform draw (`flagU`) independent of the draw that
decided the jump inside the price computation: there is a random stream on
which the returned point has `jump_occurred = true` while the jump magnitude
applied to the price was 0 (price stays 100), and a stream on which the flag
is false while a nonzero magnitude (30) was applied (price 130). -/
theorem C9_double_draw :
    (∃ (d : StepDraws) (pt : PricePoint),
      (simMed.run_step d).1 = .ok pt ∧
      pt.jump_occurred = true ∧
      (simMed.sample_jump
        (simMed.parameters.max_volatility
          * (REGIME_CONFIGS simMed.state.regime).volatility_multiplier)
        d.gen.jumpU d.gen.jumpZ).2 = 0) ∧
    (∃ (d : StepDraws) (pt : PricePoint),
      (simMed.run_step d).1 = .ok pt ∧
      pt.jump_occurred = false ∧
      (simMed.sample_jump
        (simMed.parameters.max_volatility
          * (REGIME_CONFIGS simMed.state.regime).volatility_multiplier)
        d.gen.jumpU d.gen.jumpZ).2 ≠ 0) := by
  constructor
  · refine ⟨⟨1, ⟨0, 1, 5⟩, 0⟩, ⟨1/5, 100, .MEDIUM, true⟩, ?_, rfl, ?_⟩ <;>
    · norm_num [PriceSimulator.run_step, PriceSimulator.generate_next_price,
        PriceSimulator.sample_jump, PriceSimulator.sample_normal_noise,
        PriceSimulator.init, SimulationState.make, RegimeScheduler.init,
        RegimeScheduler.update, RegimeScheduler.select_random_regime,
        RegimeScheduler.regimeList, RegimeScheduler.REGIME_SWITCH_INTERVAL,
        PriceSimulator.np_clip, REGIME_CONFIGS, defaultParameters,
        SimulationParameters.make, PriceSimulator.LONG_TERM_MEAN,
        PriceSimulator.PRICE_MIN, PriceSimulator.PRICE_MAX,
        PriceSimulator.TIME_STEP, PriceSimulator.TOTAL_DURATION, simMed,
        min_def, max_def]
  · refine ⟨⟨1, ⟨0, 0, 4⟩, 1⟩, ⟨1/5, 130, .MEDIUM, false⟩, ?_, rfl, ?_⟩ <;>
    · norm_num [PriceSimulator.run_step, PriceSimulator.generate_next_price,
        PriceSimulator.sample_jump, PriceSimulator.sample_normal_noise,
        PriceSimulator.init, SimulationState.make, RegimeScheduler.init,
        RegimeScheduler.update, RegimeScheduler.select_random_regime,
        RegimeScheduler.regimeList, RegimeScheduler.REGIME_SWITCH_INTERVAL,
        PriceSimulator.np_clip, REGIME_CONFIGS, defaultParameters,
        SimulationParameters.make, PriceSimulator.LONG_TERM_MEAN,
        PriceSimulator.PRICE_MIN, PriceSimulator.PRICE_MAX,
        PriceSimulator.TIME_STEP, PriceSimulator.TOTAL_DURATION, simMed,
        min_def, max_def]
